import Mathlib

/-!
Shallow embedding of the performance-regression tool
(`performance_regression_tool_2.ipynb`).

Python floats are modelled as exact rationals (`ℚ`); the one place where
IEEE-754 behaviour is observable (division by a zero average in
`detect_regression`) is spelled out explicitly in `ratioExceeds`.
The durable CSV file is modelled as `Store := Option (List Row)`
(`none` = the file does not exist); `pd.read_csv` / `DataFrame.to_csv`
become `load_baseline_data` / `save_baseline_data` on that state, and the
functions that read or write the file thread the `Store` value explicitly.
`datetime.now().strftime(...)` is an input of `record_performance` (the
`ts` argument), and the build-flag list is passed already joined by
spaces, exactly the string the code stores.
-/

namespace PerfRegression

/-- One row of the baseline CSV: columns `timestamp, compile_time,
run_time, flags` (see `load_baseline_data` in the source). -/
structure Row where
  timestamp : String
  compile_time : ℚ
  run_time : ℚ
  flags : String
deriving DecidableEq, Repr

/-- The durable CSV file: `none` when `os.path.exists` is false. -/
abbrev Store := Option (List Row)

/-- Embeds `load_baseline_data`: returns the stored rows, or an empty table when
the file does not exist. -/
def load_baseline_data (s : Store) : List Row :=
  s.getD []

/-- Embeds `save_baseline_data`: `df.to_csv(baseline_csv)` — overwrites the file
with the given rows. -/
def save_baseline_data (df : List Row) (_s : Store) : Store :=
  some df

/-- The group keys produced by `baseline_df.groupby('timestamp')`:
pandas `groupby` with its default `sort=True` emits the distinct keys in
ascending order. -/
def groupKeys (df : List Row) : List String :=
  List.insertionSort (· ≤ ·) (df.map (·.timestamp)).dedup

/-- The merged row for one timestamp group: mean of the numeric columns
(`groupby(...)[numeric_columns].mean()`), first value of the `flags`
column (`groupby(...)[non_numeric_columns].first()`), rows taken in
original order within the group. -/
def groupRow (df : List Row) (k : String) : Row :=
  let g := df.filter (fun r => r.timestamp = k)
  { timestamp := k
    compile_time := (g.map (·.compile_time)).sum / g.length
    run_time := (g.map (·.run_time)).sum / g.length
    flags := (g.head?.map (·.flags)).getD "" }

/-- Embeds `record_performance`: load the baseline, append the new entry, group
by timestamp (numeric mean, first flags, merged on the timestamp key),
save and return the grouped table. -/
def record_performance (ts : String) (compile_time run_time : ℚ)
    (flags : String) (s : Store) : List Row × Store :=
  let baseline_df := load_baseline_data s
  let df := baseline_df ++ [⟨ts, compile_time, run_time, flags⟩]
  let grouped_df := (groupKeys df).map (groupRow df)
  (grouped_df, save_baseline_data grouped_df s)

/-- The configured sample count (`NUM_RUNS = 3`). The measurement loop
below takes the count as an argument so that properties can quantify over
it; the program always calls it with this constant. -/
def NUM_RUNS : ℕ := 3

/-- The sampling loop of `measure_performance`: each iteration invokes
`compile_program` and `run_program` (external processes that return
elapsed wall-clock times) and appends the two times to the accumulated
lists.  The external sampler is modelled as an oracle `sampler : ℕ → ℚ × ℚ`
giving the (compile_time, run_time) pair observed on the i-th iteration. -/
def runSamples (sampler : ℕ → ℚ × ℚ) (numRuns : ℕ) : List ℚ × List ℚ :=
  (List.range numRuns).foldl
    (fun acc i => (acc.1 ++ [(sampler i).1], acc.2 ++ [(sampler i).2]))
    ([], [])

/-- The exceptions the embedded fragments can raise. The source contains
no explicit `raise` in the core: the only failure reachable in the
embedded code is Python's `ZeroDivisionError` from `sum(xs) / len(xs)`
on an empty list. -/
inductive PyError where
  | zeroDivision
deriving DecidableEq, Repr

/-- Embeds `measure_performance`: run the sampling loop, then return the average
compile time and the average run time.  Python's `sum(xs) / len(xs)`
raises `ZeroDivisionError` when the list is empty, modelled as
`Except.error`. -/
def measure_performance (sampler : ℕ → ℚ × ℚ) (numRuns : ℕ) :
    Except PyError (ℚ × ℚ) :=
  let compile_times := (runSamples sampler numRuns).1
  let run_times := (runSamples sampler numRuns).2
  if compile_times.length = 0 then .error .zeroDivision
  else if run_times.length = 0 then .error .zeroDivision
  else .ok (compile_times.sum / compile_times.length,
            run_times.sum / run_times.length)

/-- The configured threshold (`REGRESSION_THRESHOLD_RATIO = 0.05`). -/
def REGRESSION_THRESHOLD_RATIO : ℚ := 5 / 100

/-- Renders a rational in the explanation strings.  Python formats the
floats with `:.4f`; no property below depends on the digits, so the
rational is rendered as `num/den`. -/
def ratStr (q : ℚ) : String :=
  toString q.num ++ "/" ++ toString q.den

/-- The per-metric test `(new - avg) / avg > threshold` as Python
evaluates it over IEEE-754 doubles.  `ℚ` has no infinities, so the
`avg = 0` case — where the float quotient is `+inf` (numerator positive),
`-inf` (negative) or `NaN` (zero), and comparison with the finite
threshold therefore holds exactly when the numerator is positive — is
spelled out; for `avg ≠ 0` it is the exact rational inequality. -/
def ratioExceeds (newVal avg threshold : ℚ) : Bool :=
  if avg = 0 then decide (0 < newVal - avg)
  else decide ((newVal - avg) / avg > threshold)

/-- The historical average of the `compile_time` column
(`df['compile_time'].mean()`). -/
def avg_compile_of (df : List Row) : ℚ :=
  (df.map (·.compile_time)).sum / df.length

/-- The historical average of the `run_time` column
(`df['run_time'].mean()`). -/
def avg_run_of (df : List Row) : ℚ :=
  (df.map (·.run_time)).sum / df.length

/-- Embeds `detect_regression`: load the baseline; with no rows, report the
absence of baseline data; otherwise compare each new metric against the
full-history mean with the relative-threshold rule, flagging a regression
when either metric exceeds the threshold.  The function only reads the
store, so the store component is returned unchanged. -/
def detect_regression (new_compile_time new_run_time : ℚ) (s : Store) :
    (Bool × String) × Store :=
  let df := load_baseline_data s
  if df.length = 0 then
    ((false, "No baseline data exists yet."), s)
  else
    let avg_compile_time := avg_compile_of df
    let avg_run_time := avg_run_of df
    let compile_regression :=
      ratioExceeds new_compile_time avg_compile_time REGRESSION_THRESHOLD_RATIO
    let run_regression :=
      ratioExceeds new_run_time avg_run_time REGRESSION_THRESHOLD_RATIO
    if compile_regression || run_regression then
      ((true,
        "WARNING: Regression detected!\n" ++
        "Compile time changed from avg " ++ ratStr avg_compile_time ++
        "s to " ++ ratStr new_compile_time ++ "s.\n" ++
        "Run time changed from avg " ++ ratStr avg_run_time ++
        "s to " ++ ratStr new_run_time ++ "s.\n"), s)
    else
      ((false,
        "No significant regression.\n" ++
        "Compile time: " ++ ratStr new_compile_time ++ "s (avg " ++
        ratStr avg_compile_time ++ "s)\n" ++
        "Run time: " ++ ratStr new_run_time ++ "s (avg " ++
        ratStr avg_run_time ++ "s)\n"), s)

/-- The data-cleaning step of `plot_performance_history`:
`pd.to_datetime(df['timestamp'], errors='coerce')` followed by
`df.dropna(subset=['timestamp'])` keeps exactly the rows whose timestamp
parses.  The pandas datetime parser is external; it is modelled as an
oracle `parseTs : String → Option ℕ` (`none` = unparseable). -/
def plotRows (parseTs : String → Option ℕ) (s : Store) : List Row :=
  (load_baseline_data s).filter (fun r => (parseTs r.timestamp).isSome)

/-! ### Helper lemmas -/

theorem timestamp_groupRow (df : List Row) (k : String) :
    (groupRow df k).timestamp = k := rfl

theorem map_timestamp_map_groupRow (df : List Row) (ks : List String) :
    (ks.map (groupRow df)).map (·.timestamp) = ks := by
  induction ks with
  | nil => rfl
  | cons k ks ih => simp [ih, timestamp_groupRow]

theorem map_timestamp_record (ts : String) (ct rt : ℚ) (fl : String) (s : Store) :
    ((record_performance ts ct rt fl s).1).map (·.timestamp) =
      groupKeys (load_baseline_data s ++ [⟨ts, ct, rt, fl⟩]) := by
  simp only [record_performance]
  exact map_timestamp_map_groupRow _ _

theorem groupKeys_nodup (df : List Row) : (groupKeys df).Nodup :=
  (List.perm_insertionSort _ _).nodup_iff.mpr (List.nodup_dedup _)

theorem groupKeys_sorted (df : List Row) :
    List.Sorted (· ≤ ·) (groupKeys df) :=
  List.sorted_insertionSort _ _

theorem mem_groupKeys {df : List Row} {k : String} :
    k ∈ groupKeys df ↔ k ∈ df.map (·.timestamp) := by
  unfold groupKeys
  rw [List.mem_insertionSort _, List.mem_dedup]

theorem length_filter_le_one_of_nodup_map {α β : Type} [DecidableEq β]
    (f : α → β) (k : β) :
    ∀ {l : List α}, (l.map f).Nodup → (l.filter (fun x => f x = k)).length ≤ 1 := by
  intro l
  induction l with
  | nil => intro _; simp
  | cons a l ih =>
    intro hn
    rw [List.map_cons, List.nodup_cons] at hn
    by_cases hak : f a = k
    · have hz : l.filter (fun x => f x = k) = [] := by
        rw [List.filter_eq_nil_iff]
        intro x hx
        simp only [decide_eq_true_eq]
        intro hxe
        exact hn.1 (by rw [hak, ← hxe]; exact List.mem_map_of_mem f hx)
      simp [List.filter_cons, hak, hz]
    · simp only [List.filter_cons, decide_eq_true_eq, hak, if_false]
      exact ih hn.2

theorem filter_eq_singleton_of_nodup {α : Type} [DecidableEq α]
    {l : List α} {a : α} (hn : l.Nodup) (ha : a ∈ l) :
    l.filter (fun x => x = a) = [a] := by
  induction l with
  | nil => cases ha
  | cons b l ih =>
    by_cases hba : b = a
    · subst hba
      have hnl : b ∉ l := (List.nodup_cons.mp hn).1
      have hfl : l.filter (fun x => x = b) = [] := by
        rw [List.filter_eq_nil_iff]
        intro x hx
        simp only [decide_eq_true_eq]
        intro hxe
        exact hnl (hxe ▸ hx)
      simp [List.filter_cons, hfl]
    · have hma : a ∈ l := by
        rcases List.mem_cons.mp ha with h | h
        · exact absurd h.symm hba
        · exact h
      simp [List.filter_cons, hba, ih (List.nodup_cons.mp hn).2 hma]

theorem filter_map_groupRow (df : List Row) (k : String)
    (hk : k ∈ df.map (·.timestamp)) :
    ((groupKeys df).map (groupRow df)).filter (fun r => r.timestamp = k) =
      [groupRow df k] := by
  rw [List.filter_map]
  have hcomp : ((fun r => decide (r.timestamp = k)) ∘ groupRow df) =
      fun x => decide (x = k) := rfl
  rw [hcomp, filter_eq_singleton_of_nodup (groupKeys_nodup df) (mem_groupKeys.mpr hk)]
  rfl

theorem runSamples_eq (sampler : ℕ → ℚ × ℚ) (n : ℕ) :
    runSamples sampler n =
      ((List.range n).map (fun i => (sampler i).1),
       (List.range n).map (fun i => (sampler i).2)) := by
  induction n with
  | zero => rfl
  | succ n ih =>
    unfold runSamples at ih ⊢
    rw [List.range_succ, List.foldl_append, ih]
    simp

theorem charsBA : ¬ ((['B'] : List Char) ≤ ['A']) := by decide

theorem charsBC : ((['B'] : List Char) ≤ ['C']) := by decide

/-! ### Claims -/

/-- C4: for the empty history, `detect_regression` returns
`is_regression = false` together with the "no baseline data" explanation
string, and (being a total function of the loaded rows) never fails. -/
theorem detect_empty_history_no_baseline (nc nr : ℚ) (s : Store)
    (h : load_baseline_data s = []) :
    detect_regression nc nr s = ((false, "No baseline data exists yet."), s) := by
  unfold detect_regression
  rw [h]
  rfl

theorem detect_empty_history_no_baseline_witness :
    load_baseline_data none = [] ∧
      detect_regression 1 1 none = ((false, "No baseline data exists yet."), none) :=
  ⟨rfl, detect_empty_history_no_baseline 1 1 none rfl⟩

/-- C10: `detect_regression` leaves the durable history record unchanged —
it only reads the store, so the store after a detect call is the store
before it, and any later load observes the same history. -/
theorem detect_preserves_store (nc nr : ℚ) (s : Store) :
    (detect_regression nc nr s).2 = s ∧
      load_baseline_data (detect_regression nc nr s).2 = load_baseline_data s := by
  have h : (detect_regression nc nr s).2 = s := by
    unfold detect_regression
    dsimp only
    split
    · rfl
    · split <;> rfl
  exact ⟨h, by rw [h]⟩

/-- C9, counterexample: pandas `groupby` sorts the group keys, so a
pre-existing history whose rows are not already in ascending timestamp
order is reordered by `record_performance`: rows with timestamps
`"B", "A"` come back as `"A", "B"`, hence pre-existing rows do not keep
their original relative order (the original timestamp sequence is not a
subsequence of the new one). -/
theorem record_reorders_preexisting_rows :
    (load_baseline_data (some [⟨"B", 1, 1, "f1"⟩, ⟨"A", 2, 2, "f2"⟩])).map (·.timestamp)
        = ["B", "A"] ∧
    ((record_performance "C" 3 3 "f3"
        (some [⟨"B", 1, 1, "f1"⟩, ⟨"A", 2, 2, "f2"⟩])).1).map (·.timestamp)
        = ["A", "B", "C"] ∧
    ¬ List.Sublist ["B", "A"] ["A", "B", "C"] := by
  refine ⟨rfl, ?_, by decide⟩
  simp [record_performance, load_baseline_data, save_baseline_data, groupKeys, groupRow,
    List.insertionSort, List.orderedInsert, List.dedup, charsBA, charsBC]

/-- C9, amended: after every `record_performance`, the resulting history is
sorted in ascending order of the timestamp key (pandas `groupby` emits the
group keys sorted); insertion order is preserved only in the special case
where the pre-existing history is already sorted and the new key is larger
than every existing one. -/
theorem record_sorted_by_timestamp (ts : String) (ct rt : ℚ) (fl : String) (s : Store) :
    List.Sorted (· ≤ ·) (((record_performance ts ct rt fl s).1).map (·.timestamp)) := by
  rw [map_timestamp_record]
  exact groupKeys_sorted _

/-- C6: for every `n ≥ 1`, the measurement loop invokes the sampler exactly
`n` times in order (the collected sample lists are exactly the first `n`
oracle values) and `measure_performance` returns, for each metric
independently, exactly the arithmetic mean of those `n` samples. -/
theorem measure_mean_of_each_metric (sampler : ℕ → ℚ × ℚ) (n : ℕ) (h : 1 ≤ n) :
    (runSamples sampler n).1 = (List.range n).map (fun i => (sampler i).1) ∧
    (runSamples sampler n).2 = (List.range n).map (fun i => (sampler i).2) ∧
    measure_performance sampler n =
      .ok ((((List.range n).map (fun i => (sampler i).1)).sum) / (n : ℚ),
           (((List.range n).map (fun i => (sampler i).2)).sum) / (n : ℚ)) := by
  have he := runSamples_eq sampler n
  have hn : n ≠ 0 := by omega
  refine ⟨by rw [he], by rw [he], ?_⟩
  simp [measure_performance, he, hn]

theorem measure_mean_of_each_metric_witness :
    1 ≤ 3 ∧
    measure_performance (fun i => ((i : ℚ) + 1, 2 * ((i : ℚ) + 1))) 3 =
      .ok ((((List.range 3).map (fun i => (((i : ℚ) + 1, 2 * ((i : ℚ) + 1)) : ℚ × ℚ).1)).sum) / ((3 : ℕ) : ℚ),
           (((List.range 3).map (fun i => (((i : ℚ) + 1, 2 * ((i : ℚ) + 1)) : ℚ × ℚ).2)).sum) / ((3 : ℕ) : ℚ)) :=
  ⟨by omega,
   (measure_mean_of_each_metric (fun i => ((i : ℚ) + 1, 2 * ((i : ℚ) + 1))) 3 (by omega)).2.2⟩

/-- C8, counterexample: with a sample count of `0`, the measurement code
contains no `InvalidConfig` validation at all: the loop body never runs
(so indeed no process is spawned), and the failure that does occur is the
`ZeroDivisionError` raised when averaging the empty sample list. -/
theorem measure_zero_runs_no_invalid_config :
    runSamples (fun _ => (1, 1)) 0 = ([], []) ∧
    measure_performance (fun _ => (1, 1)) 0 = .error .zeroDivision :=
  ⟨rfl, rfl⟩

/-- C8, amended: for every `n < 1`, no sample is taken (the sampler is
never invoked), and the measurement fails with `ZeroDivisionError` when it
averages the empty sample lists — not with an `InvalidConfig` validation
error, which does not exist in the code. -/
theorem measure_lt_one_no_sample_zero_division (sampler : ℕ → ℚ × ℚ) (n : ℕ)
    (h : n < 1) :
    runSamples sampler n = ([], []) ∧
    measure_performance sampler n = .error .zeroDivision := by
  have h0 : n = 0 := by omega
  subst h0
  exact ⟨rfl, rfl⟩

theorem measure_lt_one_no_sample_zero_division_witness :
    0 < 1 ∧
    runSamples (fun _ => (2, 2)) 0 = ([], []) ∧
    measure_performance (fun _ => (2, 2)) 0 = .error .zeroDivision :=
  ⟨by omega,
   (measure_lt_one_no_sample_zero_division (fun _ => (2, 2)) 0 (by omega)).1,
   (measure_lt_one_no_sample_zero_division (fun _ => (2, 2)) 0 (by omega)).2⟩

/-- C1: on every non-empty history whose two column averages are nonzero
(the real-number ratio is undefined on a zero average — that situation is
claim C3's subject), `detect_regression` computes the full-history
arithmetic mean of each column (`avg_compile_of` / `avg_run_of`, i.e.
column sum over row count) and returns `is_regression = true` exactly when
`(new - avg) / avg > threshold` holds strictly for the compile metric or
strictly for the run metric — logical OR across the two metrics. -/
theorem detect_iff_mean_ratio_exceeds (nc nr : ℚ) (s : Store)
    (hne : load_baseline_data s ≠ [])
    (hc : avg_compile_of (load_baseline_data s) ≠ 0)
    (hr : avg_run_of (load_baseline_data s) ≠ 0) :
    (detect_regression nc nr s).1.1 = true ↔
      ((nc - avg_compile_of (load_baseline_data s)) /
          avg_compile_of (load_baseline_data s) > REGRESSION_THRESHOLD_RATIO ∨
       (nr - avg_run_of (load_baseline_data s)) /
          avg_run_of (load_baseline_data s) > REGRESSION_THRESHOLD_RATIO) := by
  have hlen : ¬ ((load_baseline_data s).length = 0) := by
    simpa [List.length_eq_zero] using hne
  have hmain : (detect_regression nc nr s).1.1 =
      (ratioExceeds nc (avg_compile_of (load_baseline_data s)) REGRESSION_THRESHOLD_RATIO ||
       ratioExceeds nr (avg_run_of (load_baseline_data s)) REGRESSION_THRESHOLD_RATIO) := by
    unfold detect_regression
    dsimp only
    rw [if_neg hlen]
    split
    · rename_i hcond
      exact hcond.symm
    · rename_i hcond
      simp only [Bool.not_eq_true] at hcond
      exact hcond.symm
  rw [hmain]
  unfold ratioExceeds
  rw [if_neg hc, if_neg hr]
  simp

theorem detect_iff_mean_ratio_exceeds_witness :
    load_baseline_data (some [⟨"T", 10, 10, "x"⟩]) ≠ [] ∧
    avg_compile_of (load_baseline_data (some [⟨"T", 10, 10, "x"⟩])) ≠ 0 ∧
    avg_run_of (load_baseline_data (some [⟨"T", 10, 10, "x"⟩])) ≠ 0 ∧
    ((detect_regression (53/5) (52/5) (some [⟨"T", 10, 10, "x"⟩])).1.1 = true ↔
      (((53:ℚ)/5 - avg_compile_of (load_baseline_data (some [⟨"T", 10, 10, "x"⟩]))) /
          avg_compile_of (load_baseline_data (some [⟨"T", 10, 10, "x"⟩])) > REGRESSION_THRESHOLD_RATIO ∨
       ((52:ℚ)/5 - avg_run_of (load_baseline_data (some [⟨"T", 10, 10, "x"⟩]))) /
          avg_run_of (load_baseline_data (some [⟨"T", 10, 10, "x"⟩])) > REGRESSION_THRESHOLD_RATIO)) :=
  ⟨by simp [load_baseline_data],
   by norm_num [avg_compile_of, load_baseline_data],
   by norm_num [avg_run_of, load_baseline_data],
   detect_iff_mean_ratio_exceeds (53/5) (52/5) (some [⟨"T", 10, 10, "x"⟩])
     (by simp [load_baseline_data])
     (by norm_num [avg_compile_of, load_baseline_data])
     (by norm_num [avg_run_of, load_baseline_data])⟩

/-- C3, counterexample: the code contains no `InvalidBaseline` guard — no
such error exists anywhere in the program: on a non-empty history whose
compile-time column average is zero, `detect_regression` returns a normal
verdict computed from the degenerate ratio (here `(1 - 0)/0`, which is
`+inf` in the IEEE arithmetic the code runs under) instead of failing. -/
theorem detect_zero_average_returns_verdict :
    avg_compile_of (load_baseline_data (some [⟨"T", 0, 1, "f"⟩])) = 0 ∧
    (detect_regression 1 1 (some [⟨"T", 0, 1, "f"⟩])).1.1 = true := by
  constructor
  · norm_num [avg_compile_of, load_baseline_data]
  · simp [detect_regression, load_baseline_data, avg_compile_of, avg_run_of, ratioExceeds,
      REGRESSION_THRESHOLD_RATIO]

/-- C3, amended: `detect_regression` has no guard for a zero or
non-positive historical average and never fails with `InvalidBaseline`; it
evaluates the float ratio anyway and returns a normal verdict.  In
particular, when the compile-time average is zero and the new compile time
is positive, the ratio is `+inf` and the verdict is `is_regression = true`. -/
theorem detect_zero_average_flags_regression (nc nr : ℚ) (s : Store)
    (hne : load_baseline_data s ≠ [])
    (hc : avg_compile_of (load_baseline_data s) = 0)
    (hp : 0 < nc) :
    (detect_regression nc nr s).1.1 = true := by
  have hlen : ¬ ((load_baseline_data s).length = 0) := by
    simpa [List.length_eq_zero] using hne
  have hx : ratioExceeds nc (avg_compile_of (load_baseline_data s))
      REGRESSION_THRESHOLD_RATIO = true := by
    unfold ratioExceeds
    rw [if_pos hc, hc]
    simpa using hp
  unfold detect_regression
  dsimp only
  rw [if_neg hlen]
  simp [hx]

theorem detect_zero_average_flags_regression_witness :
    load_baseline_data (some [⟨"T", 0, 1, "f"⟩]) ≠ [] ∧
    avg_compile_of (load_baseline_data (some [⟨"T", 0, 1, "f"⟩])) = 0 ∧
    (0:ℚ) < 2 ∧
    (detect_regression 2 1 (some [⟨"T", 0, 1, "f"⟩])).1.1 = true :=
  ⟨by simp [load_baseline_data],
   by norm_num [avg_compile_of, load_baseline_data],
   by norm_num,
   detect_zero_average_flags_regression 2 1 (some [⟨"T", 0, 1, "f"⟩])
     (by simp [load_baseline_data])
     (by norm_num [avg_compile_of, load_baseline_data])
     (by norm_num)⟩

/-- C5: after every record operation the resulting history has at most one
row per distinct timestamp value, and every surviving row carries the
arithmetic mean of the contributing `compile_time` and `run_time` values
for its key together with the flags of the first contributing row (rows
taken in original order: pre-existing rows first, the new measurement
last). -/
theorem record_unique_timestamps_mean_first (ts : String) (ct rt : ℚ)
    (fl : String) (s : Store) :
    (((record_performance ts ct rt fl s).1).map (·.timestamp)).Nodup ∧
    (∀ k : String,
      (((record_performance ts ct rt fl s).1).filter
          (fun r => r.timestamp = k)).length ≤ 1) ∧
    (∀ r ∈ (record_performance ts ct rt fl s).1,
      r.compile_time =
        (((load_baseline_data s ++ [Row.mk ts ct rt fl]).filter
            (fun x => x.timestamp = r.timestamp)).map (·.compile_time)).sum /
          ((((load_baseline_data s ++ [Row.mk ts ct rt fl]).filter
            (fun x => x.timestamp = r.timestamp)).length : ℕ) : ℚ) ∧
      r.run_time =
        (((load_baseline_data s ++ [Row.mk ts ct rt fl]).filter
            (fun x => x.timestamp = r.timestamp)).map (·.run_time)).sum /
          ((((load_baseline_data s ++ [Row.mk ts ct rt fl]).filter
            (fun x => x.timestamp = r.timestamp)).length : ℕ) : ℚ) ∧
      ((load_baseline_data s ++ [Row.mk ts ct rt fl]).filter
          (fun x => x.timestamp = r.timestamp)).head?.map (·.flags) =
        some r.flags) := by
  have hnodup : (((record_performance ts ct rt fl s).1).map (·.timestamp)).Nodup := by
    rw [map_timestamp_record]
    exact groupKeys_nodup _
  refine ⟨hnodup, fun k => length_filter_le_one_of_nodup_map _ k hnodup, ?_⟩
  intro r hr
  have hr' : ∃ k ∈ groupKeys (load_baseline_data s ++ [Row.mk ts ct rt fl]),
      groupRow (load_baseline_data s ++ [Row.mk ts ct rt fl]) k = r := by
    simpa [record_performance] using hr
  obtain ⟨k, hkmem, hkr⟩ := hr'
  have hts : r.timestamp = k := by rw [← hkr, timestamp_groupRow]
  subst hkr
  rw [hts]
  have hkdf : k ∈ (load_baseline_data s ++ [Row.mk ts ct rt fl]).map (·.timestamp) :=
    mem_groupKeys.mp hkmem
  obtain ⟨x, hxmem, hxk⟩ := List.mem_map.mp hkdf
  have hxfil : x ∈ (load_baseline_data s ++ [Row.mk ts ct rt fl]).filter
      (fun y => y.timestamp = k) :=
    List.mem_filter.mpr ⟨hxmem, by simpa using hxk⟩
  refine ⟨rfl, rfl, ?_⟩
  cases hG : (load_baseline_data s ++ [Row.mk ts ct rt fl]).filter
      (fun y => y.timestamp = k) with
  | nil => rw [hG] at hxfil; cases hxfil
  | cons g0 gs =>
    show some g0.flags = some (groupRow _ k).flags
    unfold groupRow
    rw [hG]
    rfl

theorem record_unique_timestamps_mean_first_witness :
    (((record_performance "T" 1 2 "f" none).1).map (·.timestamp)).Nodup ∧
    ((load_baseline_data none ++ [Row.mk "T" 1 2 "f"]).filter
        (fun x => x.timestamp = (Row.mk "T" 1 2 "f").timestamp)).head?.map (·.flags) =
      some (Row.mk "T" 1 2 "f").flags :=
  ⟨(record_unique_timestamps_mean_first "T" 1 2 "f" none).1,
   ((record_unique_timestamps_mean_first "T" 1 2 "f" none).2.2 (Row.mk "T" 1 2 "f")
     (by simp [record_performance, groupKeys, groupRow, load_baseline_data,
       List.insertionSort, List.orderedInsert, List.dedup, List.filter])).2.2⟩

/-- C2: recording two measurements with the same timestamp key into a store
that holds no row with that key — flags `"X"` on the first, numeric values
`(ac, ar)` and `(bc, br)` — leaves the history with exactly one row for
that timestamp, its `compile_time` and `run_time` equal to the mean of the
two contributing values, and its flags equal to the first contributing
value `"X"`. -/
theorem record_same_timestamp_merges (ts : String) (ac ar bc br : ℚ)
    (f2 : String) (s : Store)
    (h : ∀ r ∈ load_baseline_data s, r.timestamp ≠ ts) :
    ((record_performance ts bc br f2
        (record_performance ts ac ar "X" s).2).1).filter
        (fun r => r.timestamp = ts) =
      [Row.mk ts ((ac + bc) / 2) ((ar + br) / 2) "X"] := by
  have hts1 : ts ∈ (load_baseline_data s ++ [Row.mk ts ac ar "X"]).map (·.timestamp) := by
    simp
  have hf1 : (load_baseline_data s ++ [Row.mk ts ac ar "X"]).filter
      (fun x => x.timestamp = ts) = [Row.mk ts ac ar "X"] := by
    rw [List.filter_append]
    have hnil : (load_baseline_data s).filter (fun x => x.timestamp = ts) = [] := by
      rw [List.filter_eq_nil_iff]
      intro x hx
      simpa using h x hx
    rw [hnil]
    simp
  have hA : groupRow (load_baseline_data s ++ [Row.mk ts ac ar "X"]) ts =
      ⟨ts, ac, ar, "X"⟩ := by
    unfold groupRow
    rw [hf1]
    simp
  have hload1 : load_baseline_data (record_performance ts ac ar "X" s).2 =
      (groupKeys (load_baseline_data s ++ [Row.mk ts ac ar "X"])).map
        (groupRow (load_baseline_data s ++ [Row.mk ts ac ar "X"])) := rfl
  have hf2 : (load_baseline_data (record_performance ts ac ar "X" s).2 ++
        [Row.mk ts bc br f2]).filter (fun x => x.timestamp = ts) =
      [Row.mk ts ac ar "X", Row.mk ts bc br f2] := by
    rw [List.filter_append, hload1, filter_map_groupRow _ _ hts1, hA]
    simp
  have hB : groupRow (load_baseline_data (record_performance ts ac ar "X" s).2 ++
        [Row.mk ts bc br f2]) ts = Row.mk ts ((ac + bc) / 2) ((ar + br) / 2) "X" := by
    unfold groupRow
    rw [hf2]
    simp only [List.map_cons, List.map_nil, List.sum_cons, List.sum_nil,
      List.length_cons, List.length_nil, List.head?_cons, Option.map_some,
      Option.getD_some]
    rw [Row.mk.injEq]
    refine ⟨rfl, ?_, ?_, rfl⟩ <;> push_cast <;> ring
  have hts2 : ts ∈ (load_baseline_data (record_performance ts ac ar "X" s).2 ++
      [Row.mk ts bc br f2]).map (·.timestamp) := by
    simp
  show ((groupKeys _).map (groupRow _)).filter _ = _
  rw [filter_map_groupRow _ _ hts2, hB]

theorem record_same_timestamp_merges_witness :
    (∀ r ∈ load_baseline_data none, r.timestamp ≠ "T") ∧
    ((record_performance "T" 3 3 "Y"
        (record_performance "T" 1 1 "X" none).2).1).filter
        (fun r => r.timestamp = "T") =
      [Row.mk "T" (((1:ℚ) + 3) / 2) (((1:ℚ) + 3) / 2) "X"] :=
  ⟨fun r hr => absurd hr (by simp [load_baseline_data]),
   record_same_timestamp_merges "T" 1 1 3 3 "Y" none
     (fun r hr => absurd hr (by simp [load_baseline_data]))⟩

/-- C7, counterexample: `load_baseline_data` performs no timestamp parsing
and drops nothing — a durable record holding one row with an unparseable
timestamp and two valid rows loads to all three rows, not to the two valid
ones demanded by the claim (the loaded history has length 3, not 2). -/
theorem load_keeps_malformed_rows :
    load_baseline_data (some
      [⟨"not-a-timestamp", 5, 5, "bad"⟩,
       ⟨"2024-01-01 10:00", 1, 1, "g1"⟩,
       ⟨"2024-01-01 11:00", 2, 2, "g2"⟩]) =
      [⟨"not-a-timestamp", 5, 5, "bad"⟩,
       ⟨"2024-01-01 10:00", 1, 1, "g1"⟩,
       ⟨"2024-01-01 11:00", 2, 2, "g2"⟩] ∧
    (load_baseline_data (some
      [⟨"not-a-timestamp", 5, 5, "bad"⟩,
       ⟨"2024-01-01 10:00", 1, 1, "g1"⟩,
       ⟨"2024-01-01 11:00", 2, 2, "g2"⟩])).length = 3 :=
  ⟨rfl, rfl⟩

/-- C7, amended: rows with malformed timestamps survive
`load_baseline_data` unchanged; the silent-drop leniency lives only in the
plotting path, whose `to_datetime(errors='coerce')` followed by `dropna`
step (`plotRows`) keeps exactly the rows whose timestamp parses — on a
record with one unparseable-timestamp row and two valid rows, load returns
all three rows while the plotting step retains exactly the two valid
ones. -/
theorem load_all_rows_plot_drops_malformed (parseTs : String → Option ℕ)
    (bad g1 g2 : Row)
    (hb : parseTs bad.timestamp = none)
    (h1 : (parseTs g1.timestamp).isSome = true)
    (h2 : (parseTs g2.timestamp).isSome = true) :
    load_baseline_data (some [bad, g1, g2]) = [bad, g1, g2] ∧
    plotRows parseTs (some [bad, g1, g2]) = [g1, g2] := by
  refine ⟨rfl, ?_⟩
  simp [plotRows, load_baseline_data, List.filter_cons, hb, h1, h2]

theorem load_all_rows_plot_drops_malformed_witness :
    ((fun t => if t = "not-a-timestamp" then (none : Option ℕ) else some 0)
        (Row.mk "not-a-timestamp" 5 5 "bad").timestamp = none) ∧
    (((fun t => if t = "not-a-timestamp" then (none : Option ℕ) else some 0)
        (Row.mk "2024-01-01 10:00" 1 1 "g1").timestamp).isSome = true) ∧
    (((fun t => if t = "not-a-timestamp" then (none : Option ℕ) else some 0)
        (Row.mk "2024-01-01 11:00" 2 2 "g2").timestamp).isSome = true) ∧
    (load_baseline_data (some
        [⟨"not-a-timestamp", 5, 5, "bad"⟩,
         ⟨"2024-01-01 10:00", 1, 1, "g1"⟩,
         ⟨"2024-01-01 11:00", 2, 2, "g2"⟩]) =
      [⟨"not-a-timestamp", 5, 5, "bad"⟩,
       ⟨"2024-01-01 10:00", 1, 1, "g1"⟩,
       ⟨"2024-01-01 11:00", 2, 2, "g2"⟩] ∧
    plotRows (fun t => if t = "not-a-timestamp" then (none : Option ℕ) else some 0)
        (some
        [⟨"not-a-timestamp", 5, 5, "bad"⟩,
         ⟨"2024-01-01 10:00", 1, 1, "g1"⟩,
         ⟨"2024-01-01 11:00", 2, 2, "g2"⟩]) =
      [⟨"2024-01-01 10:00", 1, 1, "g1"⟩, ⟨"2024-01-01 11:00", 2, 2, "g2"⟩]) :=
  ⟨rfl, rfl, rfl,
   load_all_rows_plot_drops_malformed
     (fun t => if t = "not-a-timestamp" then (none : Option ℕ) else some 0)
     ⟨"not-a-timestamp", 5, 5, "bad"⟩
     ⟨"2024-01-01 10:00", 1, 1, "g1"⟩
     ⟨"2024-01-01 11:00", 2, 2, "g2"⟩ rfl rfl rfl⟩

end PerfRegression
